import Mathlib

/-!
Verification of the car-price-predictor Streamlit application
(`car_price_app.py`) against its natural-language specification.

The app collects vehicle attributes through bounded form widgets, derives
`BHP_per_CC` and `Car_Age`, one-hot encodes the categorical columns with
`pd.get_dummies`, reindexes the encoded row against the model's
`feature_names_in_` (filling missing columns with 0 and dropping extras),
and calls `model.predict` inside a single per-request `try/except` block.

The embedding below models:
 - DataFrame cell values as `PdFloat` (exact rationals plus the IEEE
   infinities/NaN produced by pandas on division by zero);
 - the single-row DataFrame as an association list `List (String × PdFloat)`;
 - the model handle as a structure with an optional feature-name list
   (absent ⇒ accessing `feature_names_in_` raises `AttributeError`) and a
   fallible `predict`;
 - `CURRENT_YEAR = datetime.now().year` as an explicit parameter `cy`,
   re-evaluated on every Streamlit script re-run;
 - Python string operations (`startswith`, `replace`, `sorted`) as
   executable functions over `List Char`.
-/

namespace CarPrice

/-- A pandas numeric cell: an exact rational, or one of the IEEE special
values that pandas produces (e.g. `inf` from float division by zero). -/
inductive PdFloat where
  | val (q : ℚ)
  | posInf
  | negInf
  | nan
deriving DecidableEq, Repr

/-- pandas/NumPy float division semantics: `x / 0` is `+inf` for positive
`x`, `-inf` for negative `x`, and `NaN` for `0 / 0`; no exception is ever
raised. Otherwise the exact quotient. Embeds line 96 of `car_price_app.py`:
`raw_data[;Power;] / raw_data[;Engine;]`. -/
def pdDiv (x y : ℚ) : PdFloat :=
  if y = 0 then
    if 0 < x then .posInf else if x < 0 then .negInf else .nan
  else .val (x / y)

/-- The RawFeatureSet built from the form widgets (lines 61–75 and the
`raw_data` DataFrame of lines 81–92 of `car_price_app.py`). -/
structure Raw where
  year : ℤ
  km : ℤ
  fuelType : String
  transmission : String
  ownerType : String
  mileage : ℚ
  engine : ℤ
  power : ℚ
  seats : ℤ
  brand : String
deriving DecidableEq, Repr

/-- The DerivedFeatureSet: the raw fields plus `BHP_per_CC` and `Car_Age`
(lines 96 and 99 of `car_price_app.py`). -/
structure Derived where
  raw : Raw
  bhpPerCC : PdFloat
  carAge : ℤ
deriving DecidableEq, Repr

/-- Feature derivation, Steps B and C of the pipeline:
`raw_data[;BHP_per_CC;] = raw_data[;Power;] / raw_data[;Engine;]` and
`raw_data[;Car_Age;] = CURRENT_YEAR - raw_data[;Year;]`, with
`CURRENT_YEAR` passed in as `cy`. -/
def derive (cy : ℤ) (r : Raw) : Derived :=
  { raw := r
    bhpPerCC := pdDiv r.power (r.engine : ℚ)
    carAge := cy - r.year }

/-! ### Python string primitives -/

/-- `leadsWith pat s` tests whether `pat` is an initial segment of `s`
(character-wise); used to embed Python `str.startswith`. -/
def leadsWith : List Char → List Char → Bool
  | [], _ => true
  | _ :: _, [] => false
  | p :: ps, c :: cs => p = c && leadsWith ps cs

/-- Python `s.startswith(pat)`. -/
def pyStartsWith (s pat : String) : Bool :=
  leadsWith pat.data s.data

/-- Worker for Python `str.replace`: scans left to right, replacing each
non-overlapping occurrence of `pat` by `rep`. `fuel` bounds the recursion;
each step consumes at least one character, so `fuel = length of the input`
is always sufficient and the `0` branch is unreachable in `pyReplace`. -/
def pyReplaceGo (pat rep : List Char) : ℕ → List Char → List Char
  | 0, s => s
  | _ + 1, [] => []
  | n + 1, c :: cs =>
    if leadsWith pat (c :: cs) && !pat.isEmpty then
      rep ++ pyReplaceGo pat rep n (List.drop (pat.length - 1) cs)
    else
      c :: pyReplaceGo pat rep n cs

/-- Python `s.replace(pat, rep)` (for non-empty `pat`): replaces every
non-overlapping occurrence of `pat` in `s`, left to right. Embeds line 38
of `car_price_app.py`: `f.replace(;Brand_;, ;;)`. -/
def pyReplace (s pat rep : String) : String :=
  ⟨pyReplaceGo pat.data rep.data s.data.length s.data⟩

/-- Code-point comparison of strings, Python `<` on `str`:
lexicographic on Unicode code points. -/
def strLtb : List Char → List Char → Bool
  | [], [] => false
  | [], _ :: _ => true
  | _ :: _, [] => false
  | a :: as, b :: bs =>
    if a.toNat < b.toNat then true
    else if b.toNat < a.toNat then false
    else strLtb as bs

/-- Python `s <= t` on strings. -/
def pyLe (s t : String) : Bool := !(strLtb t.data s.data)

/-- Insert into an ascending list, keeping ascending code-point order. -/
def insertStr (x : String) : List String → List String
  | [] => [x]
  | y :: ys => if pyLe x y then x :: y :: ys else y :: insertStr x ys

/-- Python `sorted` on a list of strings (ascending code-point order). -/
def pySorted : List String → List String
  | [] => []
  | x :: xs => insertStr x (pySorted xs)

/-! ### The model handle -/

/-- A Python exception escaping a pipeline step: the `AttributeError`
raised by accessing a missing `feature_names_in_`, or any exception
raised inside `model.predict`. -/
inductive Exc where
  | attrError
  | predictExc (msg : String)
deriving DecidableEq, Repr

/-- `str(e)` for an embedded exception. -/
def excMsg : Exc → String
  | .attrError => "model object has no attribute feature_names_in_"
  | .predictExc m => m

/-- The loaded model artifact: `featureNames = some cols` means the object
exposes `feature_names_in_ = cols`; `none` means accessing that attribute
raises `AttributeError`. `predict` may raise (return `.error`). -/
structure Model where
  featureNames : Option (List String)
  predict : List (String × PdFloat) → Except Exc ℚ

/-- The hard-coded fallback brand list of line 42 of `car_price_app.py`. -/
def defaultBrands : List String :=
  ["Maruti", "Hyundai", "Honda", "Toyota", "Mercedes-Benz", "Volkswagen",
   "Ford", "Mahindra", "BMW", "Audi", "Tata"]

/-- Lines 25–42 of `car_price_app.py`: read `model.feature_names_in_`,
keep the names starting with `Brand_`, apply `f.replace(;Brand_;, ;;)`,
and sort; on `AttributeError` fall back to `defaultBrands`. -/
def extract_brands_from_model (m : Model) : List String :=
  match m.featureNames with
  | some fs =>
      pySorted ((fs.filter (fun f => pyStartsWith f "Brand_")).map
        (fun f => pyReplace f "Brand_" ""))
  | none => defaultBrands

/-! ### One-hot encoding and reindexing -/

/-- Step D, `pd.get_dummies(raw_data)` on the single-row DataFrame: the
numeric columns keep their values (in original order) and each of the four
object columns contributes exactly one indicator column
`<field>_<selected value>` with value 1 (only the selected value is
present in a one-row frame). -/
def encode (d : Derived) : List (String × PdFloat) :=
  [("Year", .val (d.raw.year : ℚ)),
   ("Kilometers_Driven", .val (d.raw.km : ℚ)),
   ("Mileage", .val d.raw.mileage),
   ("Engine", .val (d.raw.engine : ℚ)),
   ("Power", .val d.raw.power),
   ("Seats", .val (d.raw.seats : ℚ)),
   ("BHP_per_CC", d.bhpPerCC),
   ("Car_Age", .val (d.carAge : ℚ)),
   ("Fuel_Type_" ++ d.raw.fuelType, .val 1),
   ("Transmission_" ++ d.raw.transmission, .val 1),
   ("Owner_Type_" ++ d.raw.ownerType, .val 1),
   ("Brand_" ++ d.raw.brand, .val 1)]

/-- Column lookup in a single-row frame: the value of column `c`, if the
column exists. -/
def lookupCol (c : String) (row : List (String × PdFloat)) : Option PdFloat :=
  (row.find? (fun p => p.1 == c)).map Prod.snd

/-- Step E, `data_encoded.reindex(columns=model_columns, fill_value=0)`:
one output column per schema name, in schema order, taking the candidate
value when the column exists and 0 otherwise; candidate columns not in the
schema do not appear. -/
def reindex (cand : List (String × PdFloat)) (schema : List String) :
    List (String × PdFloat) :=
  schema.map (fun c => (c, (lookupCol c cand).getD (.val 0)))

/-- The Schema Aligner: one-hot encode, then reindex against the schema. -/
def align (d : Derived) (schema : List String) : List (String × PdFloat) :=
  reindex (encode d) schema

/-! ### The orchestrator -/

/-- The body of the `try` block (Steps A–F, lines 81–113): derivation and
encoding are total; reading `model.feature_names_in_` raises
`AttributeError` when absent; otherwise the aligned row is passed to
`model.predict`, which may itself raise. -/
def pipeline (m : Model) (cy : ℤ) (r : Raw) : Except Exc ℚ :=
  let d := derive cy r
  match m.featureNames with
  | none => .error .attrError
  | some cols => m.predict (align d cols)

/-- What one button press renders: `st.success` with the prediction, or
(from the `except` block, lines 121–123) `st.error` with
`Processing Error: str(e)` plus the fixed `st.warning` tip. -/
inductive EstimateResult where
  | success (p : ℚ)
  | failure (err tip : String)
deriving DecidableEq, Repr

/-- The fixed `st.warning` text of line 123. -/
def tipMsg : String :=
  "Tip: This error usually means the input data structure does not match the training data."

/-- The whole per-request handler: the `try/except` of lines 79–123.
Every exception from the pipeline is caught and rendered as a
`Processing Error:` message; nothing propagates. -/
def estimate (m : Model) (cy : ℤ) (r : Raw) : EstimateResult :=
  match pipeline m cy r with
  | .ok p => .success p
  | .error e => .failure ("Processing Error: " ++ excMsg e) tipMsg

/-- Process state visible to one request: the `st.cache_resource`-cached
model and the calendar year that `datetime.now().year` returns when the
script re-runs for this request. -/
structure ProcState where
  model : Model
  year : ℤ

/-- One button press as a state transformer: it renders a result and
writes no process state. -/
def runRequest (s : ProcState) (r : Raw) : EstimateResult × ProcState :=
  (estimate s.model s.year r, s)

/-! ### The input collector -/

/-- An integer `st.number_input` widget: inclusive bounds and default. -/
structure IntFieldSpec where
  lo : ℤ
  hi : ℤ
  dflt : ℤ
deriving DecidableEq, Repr

/-- A float `st.number_input` widget: inclusive bounds and default. -/
structure NumFieldSpec where
  lo : ℚ
  hi : ℚ
  dflt : ℚ
deriving DecidableEq, Repr

/-- Line 65: `st.number_input("Year", 1990, CURRENT_YEAR, 2015)`. -/
def yearField (cy : ℤ) : IntFieldSpec := ⟨1990, cy, 2015⟩

/-- Line 66: `st.number_input("Kilometers", 0, 500000, 50000, step=1000)`. -/
def kmField : IntFieldSpec := ⟨0, 500000, 50000⟩

/-- Line 72: `st.number_input("Mileage (kmpl)", 5.0, 50.0, 18.0)`. -/
def mileageField : NumFieldSpec := ⟨5, 50, 18⟩

/-- Line 73: `st.number_input("Engine CC", 600, 6000, 1500)`. -/
def engineField : IntFieldSpec := ⟨600, 6000, 1500⟩

/-- Line 74: `st.number_input("Power (BHP)", 20.0, 800.0, 100.0)`. -/
def powerField : NumFieldSpec := ⟨20, 800, 100⟩

/-- Line 75: `st.number_input("Seats", 2, 10, 5)`. -/
def seatsField : IntFieldSpec := ⟨2, 10, 5⟩

/-- Line 67: the `Fuel` selectbox options. -/
def fuelDomain : List String := ["Petrol", "Diesel", "CNG", "LPG", "Electric"]

/-- Line 68: the `Transmission` selectbox options. -/
def transmissionDomain : List String := ["Manual", "Automatic"]

/-- Line 71: the `Owner` selectbox options. -/
def ownerDomain : List String := ["First", "Second", "Third", "Fourth & Above"]

/-- A RawFeatureSet the widgets can actually produce: every numeric value
inside its widget's inclusive bounds and every categorical value among its
selectbox options (the brand list coming from
`extract_brands_from_model`). -/
abbrev Valid (m : Model) (cy : ℤ) (r : Raw) : Prop :=
  (yearField cy).lo ≤ r.year ∧ r.year ≤ (yearField cy).hi ∧
  kmField.lo ≤ r.km ∧ r.km ≤ kmField.hi ∧
  r.fuelType ∈ fuelDomain ∧
  r.transmission ∈ transmissionDomain ∧
  r.ownerType ∈ ownerDomain ∧
  mileageField.lo ≤ r.mileage ∧ r.mileage ≤ mileageField.hi ∧
  engineField.lo ≤ r.engine ∧ r.engine ≤ engineField.hi ∧
  powerField.lo ≤ r.power ∧ r.power ≤ powerField.hi ∧
  seatsField.lo ≤ r.seats ∧ r.seats ≤ seatsField.hi ∧
  r.brand ∈ extract_brands_from_model m

/-! ### Categorical fields, for the one-hot claims -/

/-- The four categorical fields the app one-hot encodes. -/
inductive CatField where
  | fuel
  | transm
  | owner
  | brand
deriving DecidableEq, Repr

/-- The indicator-column name stem `<field>_` of each categorical field. -/
def catTag : CatField → String
  | .fuel => "Fuel_Type_"
  | .transm => "Transmission_"
  | .owner => "Owner_Type_"
  | .brand => "Brand_"

/-- The enumerated domain of each categorical field (the brand domain is
the dynamically extracted list). -/
def catDomain (m : Model) : CatField → List String
  | .fuel => fuelDomain
  | .transm => transmissionDomain
  | .owner => ownerDomain
  | .brand => extract_brands_from_model m

/-- The value the user selected for a categorical field. -/
def catSel (r : Raw) : CatField → String
  | .fuel => r.fuelType
  | .transm => r.transmission
  | .owner => r.ownerType
  | .brand => r.brand

/-! ### Concrete instances used by witnesses and counterexamples -/

/-- A plausible trained-model schema (the spec's §8 scenario), including a
`Brand_Lexus` column that no current input can produce. -/
def sampleSchema : List String :=
  ["Year", "Kilometers_Driven", "Mileage", "Engine", "Power", "Seats",
   "BHP_per_CC", "Car_Age",
   "Fuel_Type_CNG", "Fuel_Type_Diesel", "Fuel_Type_Electric",
   "Fuel_Type_LPG", "Fuel_Type_Petrol",
   "Transmission_Automatic", "Transmission_Manual",
   "Owner_Type_First", "Owner_Type_Fourth & Above", "Owner_Type_Second",
   "Owner_Type_Third",
   "Brand_Audi", "Brand_Lexus", "Brand_Maruti"]

/-- A model exposing `sampleSchema` and always predicting 5. -/
def sampleModel : Model := ⟨some sampleSchema, fun _ => .ok 5⟩

/-- The spec's §8 example request. -/
def sampleRaw : Raw :=
  ⟨2018, 40000, "Diesel", "Manual", "First", 20, 1200, 85, 5, "Maruti"⟩

/-- The sample request with a zero engine displacement (below the widget's
lower bound, so not collectible — used to probe the ratio derivation). -/
def rawEng0 : Raw :=
  ⟨2018, 40000, "Diesel", "Manual", "First", 20, 0, 85, 5, "Maruti"⟩

/-- The sample request with Mileage 45.0 — collectible, since the widget
allows up to 50.0. -/
def rawMil45 : Raw := { sampleRaw with mileage := 45 }

/-- Numeric reading of a pandas cell (sentinel 0 for non-finite cells). -/
def qOf : PdFloat → ℚ
  | .val q => q
  | _ => 0

/-- A model trained on the single column `Car_Age` that predicts exactly
that value: it makes the prediction depend on the calendar year read at
request time. -/
def mAge : Model :=
  ⟨some ["Car_Age"], fun row => .ok (qOf ((lookupCol "Car_Age" row).getD (.val 0)))⟩

/-- A model handle that does not expose `feature_names_in_`. -/
def mNoSchema : Model := ⟨none, fun _ => .ok 0⟩

/-- A model whose `predict` raises an ordinary exception carrying the same
text as the missing-attribute error. -/
def mBadPredict : Model :=
  ⟨some sampleSchema, fun _ => .error (.predictExc (excMsg .attrError))⟩

/-- A model with a feature name in which `Brand_` occurs twice. -/
def mDoubleBrand : Model := ⟨some ["Brand_Brand_Audi"], fun _ => .ok 0⟩

/-- Modelled from the claim wording (not from the source): brand
extraction as literal prefix removal — take each feature name starting
with `Brand_` and drop exactly that leading stem, then sort. Compared
against `extract_brands_from_model`, which uses Python `str.replace` and
therefore removes every occurrence. -/
def claimBrandStrip (fs : List String) : List String :=
  pySorted ((fs.filter (fun f => pyStartsWith f "Brand_")).map
    (fun f => ⟨f.data.drop "Brand_".length⟩))

/-! ### String disequality helpers

Column names built by `encode` are string appends; these lemmas separate
them by comparing a single character position. -/

/-- Characters of the stem survive an append. -/
theorem strApp_get (p t : String) (i : ℕ) (a : Char)
    (hp : p.data.get? i = some a) : (p ++ t).data.get? i = some a := by
  obtain ⟨h, -⟩ := List.get?_eq_some.mp hp
  rw [String.data_append, List.get?_append h]
  exact hp

/-- Strings differing at one character position differ. -/
theorem str_ne_of_get (s t : String) (i : ℕ) (a b : Char)
    (hs : s.data.get? i = some a) (ht : t.data.get? i = some b)
    (hab : a ≠ b) : s ≠ t := by
  intro h
  rw [h, ht] at hs
  exact hab (Option.some.inj hs).symm

/-- A literal column name differs from a tagged one (stem `p`) when their
characters differ at position `i` inside the stem. -/
theorem lit_ne_tagged (n p t : String) (i : ℕ) (a b : Char)
    (hn : n.data.get? i = some a) (hp : p.data.get? i = some b)
    (hab : a ≠ b) : n ≠ p ++ t :=
  str_ne_of_get n (p ++ t) i a b hn (strApp_get p t i b hp) hab

/-- Two tagged column names with different stems differ. -/
theorem tagged_ne_tagged (p t q u : String) (i : ℕ) (a b : Char)
    (hp : p.data.get? i = some a) (hq : q.data.get? i = some b)
    (hab : a ≠ b) : p ++ t ≠ q ++ u :=
  str_ne_of_get (p ++ t) (q ++ u) i a b (strApp_get p t i a hp)
    (strApp_get q u i b hq) hab

/-- Appending to a fixed stem is injective. -/
theorem strApp_inj (p v w : String) (h : p ++ v = p ++ w) : v = w := by
  have hd : (p ++ v).data = (p ++ w).data := by rw [h]
  rw [String.data_append, String.data_append] at hd
  exact String.ext (List.append_cancel_left hd)

/-! ### Lookup characterization -/

theorem lookupCol_nil (c : String) : lookupCol c [] = none := rfl

theorem lookupCol_cons_eq (c : String) (x : PdFloat)
    (l : List (String × PdFloat)) : lookupCol c ((c, x) :: l) = some x := by
  simp [lookupCol, List.find?_cons_of_pos]

theorem lookupCol_cons_ne (c n : String) (x : PdFloat)
    (l : List (String × PdFloat)) (hne : n ≠ c) :
    lookupCol c ((n, x) :: l) = lookupCol c l := by
  unfold lookupCol
  rw [List.find?_cons_of_neg]
  simp [hne]

/-- Looking up a `Fuel_Type_` indicator in the encoded row: present with
value 1 exactly for the selected fuel type, absent for every other
suffix. -/
theorem lookup_fuel (d : Derived) (v : String) :
    lookupCol ("Fuel_Type_" ++ v) (encode d) =
      if v = d.raw.fuelType then some (.val 1) else none := by
  unfold encode
  rw [lookupCol_cons_ne _ _ _ _
        (lit_ne_tagged "Year" "Fuel_Type_" v 0 'Y' 'F' (by decide) (by decide) (by decide)),
      lookupCol_cons_ne _ _ _ _
        (lit_ne_tagged "Kilometers_Driven" "Fuel_Type_" v 0 'K' 'F' (by decide) (by decide) (by decide)),
      lookupCol_cons_ne _ _ _ _
        (lit_ne_tagged "Mileage" "Fuel_Type_" v 0 'M' 'F' (by decide) (by decide) (by decide)),
      lookupCol_cons_ne _ _ _ _
        (lit_ne_tagged "Engine" "Fuel_Type_" v 0 'E' 'F' (by decide) (by decide) (by decide)),
      lookupCol_cons_ne _ _ _ _
        (lit_ne_tagged "Power" "Fuel_Type_" v 0 'P' 'F' (by decide) (by decide) (by decide)),
      lookupCol_cons_ne _ _ _ _
        (lit_ne_tagged "Seats" "Fuel_Type_" v 0 'S' 'F' (by decide) (by decide) (by decide)),
      lookupCol_cons_ne _ _ _ _
        (lit_ne_tagged "BHP_per_CC" "Fuel_Type_" v 0 'B' 'F' (by decide) (by decide) (by decide)),
      lookupCol_cons_ne _ _ _ _
        (lit_ne_tagged "Car_Age" "Fuel_Type_" v 0 'C' 'F' (by decide) (by decide) (by decide))]
  by_cases hv : v = d.raw.fuelType
  · rw [hv, lookupCol_cons_eq, if_pos rfl]
  · rw [lookupCol_cons_ne _ _ _ _ (fun h => hv (strApp_inj _ _ _ h).symm),
        lookupCol_cons_ne _ _ _ _
          (tagged_ne_tagged "Transmission_" _ "Fuel_Type_" v 0 'T' 'F' (by decide) (by decide) (by decide)),
        lookupCol_cons_ne _ _ _ _
          (tagged_ne_tagged "Owner_Type_" _ "Fuel_Type_" v 0 'O' 'F' (by decide) (by decide) (by decide)),
        lookupCol_cons_ne _ _ _ _
          (tagged_ne_tagged "Brand_" _ "Fuel_Type_" v 0 'B' 'F' (by decide) (by decide) (by decide)),
        lookupCol_nil, if_neg hv]

/-- Looking up a `Transmission_` indicator in the encoded row. -/
theorem lookup_transm (d : Derived) (v : String) :
    lookupCol ("Transmission_" ++ v) (encode d) =
      if v = d.raw.transmission then some (.val 1) else none := by
  unfold encode
  rw [lookupCol_cons_ne _ _ _ _
        (lit_ne_tagged "Year" "Transmission_" v 0 'Y' 'T' (by decide) (by decide) (by decide)),
      lookupCol_cons_ne _ _ _ _
        (lit_ne_tagged "Kilometers_Driven" "Transmission_" v 0 'K' 'T' (by decide) (by decide) (by decide)),
      lookupCol_cons_ne _ _ _ _
        (lit_ne_tagged "Mileage" "Transmission_" v 0 'M' 'T' (by decide) (by decide) (by decide)),
      lookupCol_cons_ne _ _ _ _
        (lit_ne_tagged "Engine" "Transmission_" v 0 'E' 'T' (by decide) (by decide) (by decide)),
      lookupCol_cons_ne _ _ _ _
        (lit_ne_tagged "Power" "Transmission_" v 0 'P' 'T' (by decide) (by decide) (by decide)),
      lookupCol_cons_ne _ _ _ _
        (lit_ne_tagged "Seats" "Transmission_" v 0 'S' 'T' (by decide) (by decide) (by decide)),
      lookupCol_cons_ne _ _ _ _
        (lit_ne_tagged "BHP_per_CC" "Transmission_" v 0 'B' 'T' (by decide) (by decide) (by decide)),
      lookupCol_cons_ne _ _ _ _
        (lit_ne_tagged "Car_Age" "Transmission_" v 0 'C' 'T' (by decide) (by decide) (by decide)),
      lookupCol_cons_ne _ _ _ _
        (tagged_ne_tagged "Fuel_Type_" _ "Transmission_" v 0 'F' 'T' (by decide) (by decide) (by decide))]
  by_cases hv : v = d.raw.transmission
  · rw [hv, lookupCol_cons_eq, if_pos rfl]
  · rw [lookupCol_cons_ne _ _ _ _ (fun h => hv (strApp_inj _ _ _ h).symm),
        lookupCol_cons_ne _ _ _ _
          (tagged_ne_tagged "Owner_Type_" _ "Transmission_" v 0 'O' 'T' (by decide) (by decide) (by decide)),
        lookupCol_cons_ne _ _ _ _
          (tagged_ne_tagged "Brand_" _ "Transmission_" v 0 'B' 'T' (by decide) (by decide) (by decide)),
        lookupCol_nil, if_neg hv]

/-- Looking up an `Owner_Type_` indicator in the encoded row. -/
theorem lookup_owner (d : Derived) (v : String) :
    lookupCol ("Owner_Type_" ++ v) (encode d) =
      if v = d.raw.ownerType then some (.val 1) else none := by
  unfold encode
  rw [lookupCol_cons_ne _ _ _ _
        (lit_ne_tagged "Year" "Owner_Type_" v 0 'Y' 'O' (by decide) (by decide) (by decide)),
      lookupCol_cons_ne _ _ _ _
        (lit_ne_tagged "Kilometers_Driven" "Owner_Type_" v 0 'K' 'O' (by decide) (by decide) (by decide)),
      lookupCol_cons_ne _ _ _ _
        (lit_ne_tagged "Mileage" "Owner_Type_" v 0 'M' 'O' (by decide) (by decide) (by decide)),
      lookupCol_cons_ne _ _ _ _
        (lit_ne_tagged "Engine" "Owner_Type_" v 0 'E' 'O' (by decide) (by decide) (by decide)),
      lookupCol_cons_ne _ _ _ _
        (lit_ne_tagged "Power" "Owner_Type_" v 0 'P' 'O' (by decide) (by decide) (by decide)),
      lookupCol_cons_ne _ _ _ _
        (lit_ne_tagged "Seats" "Owner_Type_" v 0 'S' 'O' (by decide) (by decide) (by decide)),
      lookupCol_cons_ne _ _ _ _
        (lit_ne_tagged "BHP_per_CC" "Owner_Type_" v 0 'B' 'O' (by decide) (by decide) (by decide)),
      lookupCol_cons_ne _ _ _ _
        (lit_ne_tagged "Car_Age" "Owner_Type_" v 0 'C' 'O' (by decide) (by decide) (by decide)),
      lookupCol_cons_ne _ _ _ _
        (tagged_ne_tagged "Fuel_Type_" _ "Owner_Type_" v 0 'F' 'O' (by decide) (by decide) (by decide)),
      lookupCol_cons_ne _ _ _ _
        (tagged_ne_tagged "Transmission_" _ "Owner_Type_" v 0 'T' 'O' (by decide) (by decide) (by decide))]
  by_cases hv : v = d.raw.ownerType
  · rw [hv, lookupCol_cons_eq, if_pos rfl]
  · rw [lookupCol_cons_ne _ _ _ _ (fun h => hv (strApp_inj _ _ _ h).symm),
        lookupCol_cons_ne _ _ _ _
          (tagged_ne_tagged "Brand_" _ "Owner_Type_" v 0 'B' 'O' (by decide) (by decide) (by decide)),
        lookupCol_nil, if_neg hv]

/-- Looking up a `Brand_` indicator in the encoded row. -/
theorem lookup_brand (d : Derived) (v : String) :
    lookupCol ("Brand_" ++ v) (encode d) =
      if v = d.raw.brand then some (.val 1) else none := by
  unfold encode
  rw [lookupCol_cons_ne _ _ _ _
        (lit_ne_tagged "Year" "Brand_" v 0 'Y' 'B' (by decide) (by decide) (by decide)),
      lookupCol_cons_ne _ _ _ _
        (lit_ne_tagged "Kilometers_Driven" "Brand_" v 0 'K' 'B' (by decide) (by decide) (by decide)),
      lookupCol_cons_ne _ _ _ _
        (lit_ne_tagged "Mileage" "Brand_" v 0 'M' 'B' (by decide) (by decide) (by decide)),
      lookupCol_cons_ne _ _ _ _
        (lit_ne_tagged "Engine" "Brand_" v 0 'E' 'B' (by decide) (by decide) (by decide)),
      lookupCol_cons_ne _ _ _ _
        (lit_ne_tagged "Power" "Brand_" v 0 'P' 'B' (by decide) (by decide) (by decide)),
      lookupCol_cons_ne _ _ _ _
        (lit_ne_tagged "Seats" "Brand_" v 0 'S' 'B' (by decide) (by decide) (by decide)),
      lookupCol_cons_ne _ _ _ _
        (lit_ne_tagged "BHP_per_CC" "Brand_" v 1 'H' 'r' (by decide) (by decide) (by decide)),
      lookupCol_cons_ne _ _ _ _
        (lit_ne_tagged "Car_Age" "Brand_" v 0 'C' 'B' (by decide) (by decide) (by decide)),
      lookupCol_cons_ne _ _ _ _
        (tagged_ne_tagged "Fuel_Type_" _ "Brand_" v 0 'F' 'B' (by decide) (by decide) (by decide)),
      lookupCol_cons_ne _ _ _ _
        (tagged_ne_tagged "Transmission_" _ "Brand_" v 0 'T' 'B' (by decide) (by decide) (by decide)),
      lookupCol_cons_ne _ _ _ _
        (tagged_ne_tagged "Owner_Type_" _ "Brand_" v 0 'O' 'B' (by decide) (by decide) (by decide))]
  by_cases hv : v = d.raw.brand
  · rw [hv, lookupCol_cons_eq, if_pos rfl]
  · rw [lookupCol_cons_ne _ _ _ _ (fun h => hv (strApp_inj _ _ _ h).symm),
        lookupCol_nil, if_neg hv]

/-- Uniform version over the four categorical fields. -/
theorem lookup_cat (d : Derived) (f : CatField) (v : String) :
    lookupCol (catTag f ++ v) (encode d) =
      if v = catSel d.raw f then some (.val 1) else none := by
  cases f with
  | fuel => exact lookup_fuel d v
  | transm => exact lookup_transm d v
  | owner => exact lookup_owner d v
  | brand => exact lookup_brand d v

/-- `lookup_cat` phrased directly over the derived set of a raw input. -/
theorem lookup_cat_derive (cy : ℤ) (r : Raw) (f : CatField) (v : String) :
    lookupCol (catTag f ++ v) (encode (derive cy r)) =
      if v = catSel r f then some (.val 1) else none :=
  lookup_cat (derive cy r) f v

/-! ### Reindex characterization -/

/-- In the reindexed row, every schema column holds the candidate value
when present and 0 otherwise. -/
theorem lookupCol_reindex (cand : List (String × PdFloat))
    (schema : List String) (c : String) (hc : c ∈ schema) :
    lookupCol c (reindex cand schema) =
      some ((lookupCol c cand).getD (.val 0)) := by
  induction schema with
  | nil => cases hc
  | cons c₀ cs ih =>
    simp only [reindex, List.map_cons]
    by_cases h : c₀ = c
    · subst h
      exact lookupCol_cons_eq _ _ _
    · rw [lookupCol_cons_ne _ _ _ _ h]
      exact ih (List.mem_of_ne_of_mem (fun hc₀ => h hc₀.symm) hc)

/-- Columns outside the schema are absent from the reindexed row. -/
theorem lookupCol_reindex_not_mem (cand : List (String × PdFloat))
    (schema : List String) (c : String) (hc : c ∉ schema) :
    lookupCol c (reindex cand schema) = none := by
  induction schema with
  | nil => rfl
  | cons c₀ cs ih =>
    simp only [reindex, List.map_cons]
    rw [lookupCol_cons_ne _ _ _ _
          (fun h => hc (by rw [← h]; exact List.mem_cons_self c₀ cs))]
    exact ih (fun h => hc (List.mem_cons_of_mem _ h))

/-- The reindexed row has exactly the schema's columns, in order. -/
theorem reindex_map_fst (cand : List (String × PdFloat))
    (schema : List String) :
    (reindex cand schema).map Prod.fst = schema := by
  simp [reindex, List.map_map, Function.comp_def]

/-- Reindexing only reads the candidate values at schema columns:
candidates agreeing there reindex identically. -/
theorem reindex_congr (cand cand' : List (String × PdFloat))
    (schema : List String)
    (h : ∀ c ∈ schema, lookupCol c cand' = lookupCol c cand) :
    reindex cand' schema = reindex cand schema := by
  unfold reindex
  exact List.map_congr_left (fun c hc => by rw [h c hc])

/-! ## Claim theorems -/

/-- C1: for every valid raw input and every schema obtained from the model
handle, the aligned row produced by derive → one-hot encode → reindex has
exactly the schema's columns, in the schema's order (hence the same
count), and this very row is the one handed to `model.predict`. -/
theorem C1_aligned_row_matches_schema (m : Model) (cy : ℤ) (r : Raw)
    (schema : List String) (_hv : Valid m cy r)
    (hs : m.featureNames = some schema) :
    (align (derive cy r) schema).map Prod.fst = schema ∧
    (align (derive cy r) schema).length = schema.length ∧
    pipeline m cy r = m.predict (align (derive cy r) schema) := by
  refine ⟨reindex_map_fst _ _, ?_, ?_⟩
  · simp only [align, reindex, List.length_map]
  · simp only [pipeline, hs]

/-- C1 witness: the schema postcondition at the spec's sample request and
sample model. -/
theorem C1_witness :
    (align (derive 2025 sampleRaw) sampleSchema).map Prod.fst = sampleSchema ∧
    (align (derive 2025 sampleRaw) sampleSchema).length = sampleSchema.length ∧
    pipeline sampleModel 2025 sampleRaw =
      sampleModel.predict (align (derive 2025 sampleRaw) sampleSchema) :=
  C1_aligned_row_matches_schema sampleModel 2025 sampleRaw sampleSchema
    (by decide) rfl

/-- C2: for each categorical field whose full indicator family lies inside
the schema, the aligned row carries value 1 on the selected value's
indicator and value 0 on every sibling indicator of that field. -/
theorem C2_one_hot (m : Model) (cy : ℤ) (r : Raw) (schema : List String)
    (f : CatField) (hv : Valid m cy r)
    (hfam : ∀ v ∈ catDomain m f, (catTag f ++ v) ∈ schema) :
    lookupCol (catTag f ++ catSel r f) (align (derive cy r) schema) =
      some (.val 1) ∧
    ∀ v ∈ catDomain m f, v ≠ catSel r f →
      lookupCol (catTag f ++ v) (align (derive cy r) schema) =
        some (.val 0) := by
  have hsel : catSel r f ∈ catDomain m f := by
    obtain ⟨-, -, -, -, h5, h6, h7, -, -, -, -, -, -, -, -, h16⟩ := hv
    cases f with
    | fuel => exact h5
    | transm => exact h6
    | owner => exact h7
    | brand => exact h16
  constructor
  · simp only [align]
    rw [lookupCol_reindex _ _ _ (hfam _ hsel), lookup_cat_derive,
      if_pos rfl]
    rfl
  · intro v hvdom hne
    simp only [align]
    rw [lookupCol_reindex _ _ _ (hfam _ hvdom), lookup_cat_derive,
      if_neg hne]
    rfl

/-- C2 witness: at the sample request, `Fuel_Type_Diesel` is 1 and the
sibling `Fuel_Type_Petrol` is 0 in the aligned row. -/
theorem C2_witness :
    lookupCol ("Fuel_Type_" ++ "Diesel")
      (align (derive 2025 sampleRaw) sampleSchema) = some (.val 1) ∧
    lookupCol ("Fuel_Type_" ++ "Petrol")
      (align (derive 2025 sampleRaw) sampleSchema) = some (.val 0) :=
  ⟨(C2_one_hot sampleModel 2025 sampleRaw sampleSchema .fuel
      (by decide) (by decide)).1,
   (C2_one_hot sampleModel 2025 sampleRaw sampleSchema .fuel
      (by decide) (by decide)).2 "Petrol" (by decide) (by decide)⟩

/-- C3 counterexample: at Engine = 0 the derived `BHP_per_CC` is `+inf`
(pandas float division of the positive Power by zero), not the claimed
sentinel 0. -/
theorem C3_cex :
    (derive 2025 rawEng0).bhpPerCC = PdFloat.posInf ∧
    (derive 2025 rawEng0).bhpPerCC ≠ PdFloat.val 0 := by
  decide

/-- C3 (amended): the ratio derivation is total and never raises — pandas
division by zero yields an infinity, not an exception — and for every
collectible input the denominator is nonzero (the Engine widget enforces
at least 600), so `BHP_per_CC` is the finite quotient Power / Engine; at
Engine = 0 the result is `+inf`, not 0. -/
theorem C3_ratio_total (m : Model) (cy : ℤ) (r : Raw) (hv : Valid m cy r) :
    (r.engine : ℚ) ≠ 0 ∧
    (derive cy r).bhpPerCC = .val (r.power / (r.engine : ℚ)) := by
  obtain ⟨-, -, -, -, -, -, -, -, -, h10, -⟩ := hv
  have h600 : (600 : ℤ) ≤ r.engine := h10
  have hpos : (0 : ℤ) < r.engine := lt_of_lt_of_le (by norm_num) h600
  have hne : (r.engine : ℚ) ≠ 0 := by exact_mod_cast hpos.ne'
  exact ⟨hne, by simp [derive, pdDiv, hne]⟩

/-- C3 witness: the amended statement at the sample request. -/
theorem C3_witness :
    (sampleRaw.engine : ℚ) ≠ 0 ∧
    (derive 2025 sampleRaw).bhpPerCC =
      .val (sampleRaw.power / (sampleRaw.engine : ℚ)) :=
  C3_ratio_total sampleModel 2025 sampleRaw (by decide)

/-- C4: reindexing is a per-column function of the candidate set — each
schema column takes the candidate value when present and 0 otherwise;
columns outside the schema are absent from the result; and candidate
columns outside the schema have no effect (two candidate sets agreeing on
the schema columns reindex identically). -/
theorem C4_reindex_pointwise (cand : List (String × PdFloat))
    (schema : List String) :
    (∀ c ∈ schema, lookupCol c (reindex cand schema) =
      some ((lookupCol c cand).getD (.val 0))) ∧
    (∀ c, c ∉ schema → lookupCol c (reindex cand schema) = none) ∧
    (∀ cand', (∀ c ∈ schema, lookupCol c cand' = lookupCol c cand) →
      reindex cand' schema = reindex cand schema) :=
  ⟨fun c hc => lookupCol_reindex cand schema c hc,
   fun c hc => lookupCol_reindex_not_mem cand schema c hc,
   fun cand' h => reindex_congr cand cand' schema h⟩

/-- C4 witness: the schema's `Brand_Lexus` column is absent from the
sample request's candidates, so the aligned row fills it with 0 without
failing; the candidate-free column `Tax` is absent from the aligned
row. -/
theorem C4_witness :
    lookupCol "Brand_Lexus" (align (derive 2025 sampleRaw) sampleSchema) =
      some ((lookupCol "Brand_Lexus"
        (encode (derive 2025 sampleRaw))).getD (.val 0)) ∧
    lookupCol "Brand_Lexus" (encode (derive 2025 sampleRaw)) = none ∧
    lookupCol "Brand_Lexus" (align (derive 2025 sampleRaw) sampleSchema) =
      some (.val 0) ∧
    lookupCol "Tax" (align (derive 2025 sampleRaw) sampleSchema) = none :=
  ⟨(C4_reindex_pointwise (encode (derive 2025 sampleRaw)) sampleSchema).1
      "Brand_Lexus" (by decide),
   by decide,
   by decide,
   (C4_reindex_pointwise (encode (derive 2025 sampleRaw)) sampleSchema).2.1
      "Tax" (by decide)⟩

/-- C5: `Car_Age` equals the reference year (the calendar year read when
the script runs for the request, passed here as `cy`) minus the entered
Year; in particular Year = cy gives age 0 and Year = 1990 gives age
cy − 1990. -/
theorem C5_car_age (cy : ℤ) (r : Raw) :
    (derive cy r).carAge = cy - r.year ∧
    (derive cy { r with year := cy }).carAge = 0 ∧
    (derive cy { r with year := 1990 }).carAge = cy - 1990 := by
  refine ⟨rfl, ?_, rfl⟩
  simp [derive]

/-- C6 counterexample: when the model lacks `feature_names_in_`, the
result is the generic per-request failure — identical, message and tip
included, to the failure produced by an ordinary `predict` exception
carrying the same text. There is no distinct SchemaUnavailable condition
and no setup-specific message. -/
theorem C6_cex :
    estimate mNoSchema 2025 sampleRaw = estimate mBadPredict 2025 sampleRaw ∧
    estimate mNoSchema 2025 sampleRaw =
      .failure ("Processing Error: " ++ excMsg .attrError) tipMsg := by
  constructor
  · rfl
  · rfl

/-- C6 (amended): if the model handle lacks `feature_names_in_`, the
`AttributeError` is caught by the generic per-request handler, which
renders `Processing Error: …` plus the fixed input-structure tip (not a
distinct SchemaUnavailable / setup-error classification), and
`model.predict` is never invoked — the outcome is independent of the
predict function. -/
theorem C6_missing_schema_generic (cy : ℤ) (r : Raw)
    (p₁ p₂ : List (String × PdFloat) → Except Exc ℚ) :
    estimate ⟨none, p₁⟩ cy r = estimate ⟨none, p₂⟩ cy r ∧
    estimate ⟨none, p₁⟩ cy r =
      .failure ("Processing Error: " ++ excMsg .attrError) tipMsg :=
  ⟨rfl, rfl⟩

/-- C7: every request either succeeds with the pipeline's prediction or
yields the classified user-visible failure message built from the caught
exception; no exception from the aligner steps or from `predict` escapes
the per-request handler. -/
theorem C7_exceptions_contained (m : Model) (cy : ℤ) (r : Raw) :
    (∃ p, pipeline m cy r = .ok p ∧ estimate m cy r = .success p) ∨
    (∃ e, pipeline m cy r = .error e ∧
      estimate m cy r =
        .failure ("Processing Error: " ++ excMsg e) tipMsg) := by
  cases h : pipeline m cy r with
  | ok p => exact .inl ⟨p, rfl, by simp [estimate, h]⟩
  | error e => exact .inr ⟨e, rfl, by simp [estimate, h]⟩

/-- C8 counterexample: two runs in the same process with identical raw
input and the same unchanged model can produce different predictions,
because `CURRENT_YEAR = datetime.now().year` is re-evaluated on every
script re-run: around a calendar-year change, `Car_Age` shifts. -/
theorem C8_cex :
    estimate mAge 2025 sampleRaw = .success 7 ∧
    estimate mAge 2026 sampleRaw = .success 8 ∧
    estimate mAge 2025 sampleRaw ≠ estimate mAge 2026 sampleRaw := by
  refine ⟨by decide, by decide, by decide⟩

/-- C8 (amended): a request writes no process state, and two consecutive
runs with identical raw input, the unchanged cached model, and the same
current calendar year render identical results; the current year — re-read
on each run — is the only external state the pipeline consumes. -/
theorem C8_idempotent_same_year (s : ProcState) (r : Raw) :
    (runRequest s r).2 = s ∧
    (runRequest ((runRequest s r).2) r).1 = (runRequest s r).1 :=
  ⟨rfl, rfl⟩

/-- C9 counterexample: the widgets enforce Mileage up to 50.0, Power up to
800.0 and Seats up to 10 — not the claimed 40.0 / 600.0 / 14 — and the
collectible request `rawMil45` (Mileage 45.0) lies outside the claimed
Mileage bound. -/
theorem C9_cex :
    mileageField.hi = 50 ∧ powerField.hi = 800 ∧ seatsField.hi = 10 ∧
    ¬(mileageField.hi = 40 ∧ powerField.hi = 600 ∧ seatsField.hi = 14) ∧
    Valid sampleModel 2025 rawMil45 ∧ ¬(rawMil45.mileage ≤ 40) := by
  refine ⟨rfl, rfl, rfl, by decide, by decide, by decide⟩

/-- C9 (amended): every collectible raw input satisfies the widget bounds
actually coded — Mileage in [5.0, 50.0] default 18.0, Engine in
[600, 6000] default 1500, Power in [20.0, 800.0] default 100.0, Seats in
[2, 10] default 5. -/
theorem C9_numeric_bounds (m : Model) (cy : ℤ) (r : Raw)
    (hv : Valid m cy r) :
    ((5 : ℚ) ≤ r.mileage ∧ r.mileage ≤ 50 ∧ mileageField.dflt = 18) ∧
    ((600 : ℤ) ≤ r.engine ∧ r.engine ≤ 6000 ∧ engineField.dflt = 1500) ∧
    ((20 : ℚ) ≤ r.power ∧ r.power ≤ 800 ∧ powerField.dflt = 100) ∧
    ((2 : ℤ) ≤ r.seats ∧ r.seats ≤ 10 ∧ seatsField.dflt = 5) := by
  obtain ⟨-, -, -, -, -, -, -, h8, h9, h10, h11, h12, h13, h14, h15, -⟩ := hv
  exact ⟨⟨h8, h9, rfl⟩, ⟨h10, h11, rfl⟩, ⟨h12, h13, rfl⟩, ⟨h14, h15, rfl⟩⟩

/-- C9 witness: the amended bounds at the sample request. -/
theorem C9_witness :
    ((5 : ℚ) ≤ sampleRaw.mileage ∧ sampleRaw.mileage ≤ 50 ∧
      mileageField.dflt = 18) ∧
    ((600 : ℤ) ≤ sampleRaw.engine ∧ sampleRaw.engine ≤ 6000 ∧
      engineField.dflt = 1500) ∧
    ((20 : ℚ) ≤ sampleRaw.power ∧ sampleRaw.power ≤ 800 ∧
      powerField.dflt = 100) ∧
    ((2 : ℤ) ≤ sampleRaw.seats ∧ sampleRaw.seats ≤ 10 ∧
      seatsField.dflt = 5) :=
  C9_numeric_bounds sampleModel 2025 sampleRaw (by decide)

/-- C10 counterexample: `extract_brands_from_model` uses Python
`str.replace`, which removes every occurrence of `Brand_`, not just the
leading stem: on the feature name `Brand_Brand_Audi` the code yields
`Audi` while the claimed prefix removal yields `Brand_Audi`. -/
theorem C10_cex :
    extract_brands_from_model mDoubleBrand = ["Audi"] ∧
    claimBrandStrip ["Brand_Brand_Audi"] = ["Brand_Audi"] ∧
    extract_brands_from_model mDoubleBrand ≠
      claimBrandStrip ["Brand_Brand_Audi"] := by
  refine ⟨by decide, by decide, by decide⟩

/-- C10 (amended): for a model exposing feature names, the extraction
returns the sorted list obtained by keeping the names starting with
`Brand_` and deleting every occurrence of `Brand_` (Python `str.replace`
semantics) — which coincides with prefix removal whenever `Brand_` occurs
only as the leading stem, as on the sample schema; for a model lacking the
attribute it returns the fixed 11-element default brand list and the app
continues with it. -/
theorem C10_extract_brands (fs : List String)
    (p q : List (String × PdFloat) → Except Exc ℚ) :
    extract_brands_from_model ⟨some fs, p⟩ =
      pySorted ((fs.filter (fun f => pyStartsWith f "Brand_")).map
        (fun f => pyReplace f "Brand_" "")) ∧
    extract_brands_from_model ⟨none, q⟩ = defaultBrands ∧
    defaultBrands.length = 11 ∧
    extract_brands_from_model sampleModel = ["Audi", "Lexus", "Maruti"] ∧
    claimBrandStrip sampleSchema = ["Audi", "Lexus", "Maruti"] :=
  ⟨rfl, rfl, by decide, by decide, by decide⟩

end CarPrice
